import Mathlib

/-
Verification of the Sipari-Takip inventory application's core behaviors.

This file is a shallow embedding, in Lean 4, of the data model and the
operations of the repository (Django models in store/models.py and
transactions/models.py, and the view functions in store/views.py).

Modelling conventions:
- Django model instances become Lean structures; a database table becomes a
  List of such structures, in the iteration order the ORM would return.
- DecimalField values become rationals, IntegerField values become integers,
  CharField values become strings, nullable fields become Option.
- DateTimeField values become integers (days on a linear timeline); the
  formatted timestamp a view interpolates into a message is passed in as a
  string argument, standing for the request-time clock.
- Python truthiness on a string or decimal is emptiness / zero testing, and
  is written out explicitly at each use site.
- The default manager of a SoftDeletableModel (django-model-utils) excludes
  rows with is_removed = true; lookups through it carry that filter.
- Primary keys are assumed unique per table; an update writes back through
  the primary key.
-/

/-- Acting user: Django auth user together with its Profile role code
(accounts.models.Profile.role, where the code AD denotes the admin role). -/
structure Kullanici where
  id : Nat
  is_superuser : Bool
  role : String
deriving DecidableEq

/-- The admin test used throughout store/views.py:
request.user.is_superuser or request.user.profile.role == 'AD'. -/
def isAdmin (u : Kullanici) : Bool :=
  u.is_superuser || u.role == "AD"

/-- Round half to even, as Python's round() behaves on a Decimal quotient
(banker's rounding, ROUND_HALF_EVEN). Written on the numerator and
denominator of the reduced fraction q = a / b (with b > 0): with n = ⌊q⌋
and remainder r = a - n * b in [0, b), the fractional part r / b is
compared with 1/2 by comparing 2 * r with b. -/
def roundHalfEven (q : ℚ) : ℤ :=
  let a : ℤ := q.num
  let b : ℤ := (q.den : ℤ)
  let n : ℤ := a.fdiv b
  let r : ℤ := a - n * b
  if 2 * r < b then n
  else if b < 2 * r then n + 1
  else if n % 2 = 0 then n else n + 1

/-- store.models.LastikEnvanteri: one tire-lot inventory record. -/
structure Lastik where
  id : Nat
  cari : String
  urun : String
  marka : String
  grup : String
  mevsim : Option String
  adet : ℤ
  birim_fiyat : ℚ
  toplam_fiyat : ℚ
  durum : String
  ambar : String
  odeme : Option String
  sms_gonderildi : Bool
  one_cikar : Bool
  iptal_sebebi : Option String
  user : Option Nat
  is_removed : Bool
  olusturma_tarihi : ℤ
  guncelleme_tarihi : ℤ
deriving DecidableEq

/-- First block of LastikEnvanteri.save (store/models.py lines 193-195):
default the status to YOLDA when it is empty. -/
def lastikDurumDefault (l : Lastik) : Lastik :=
  if l.durum = "" then { l with durum := "YOLDA" } else l

/-- Second block of LastikEnvanteri.save (store/models.py lines 197-199):
when toplam_fiyat and birim_fiyat are truthy and birim_fiyat > 0, recompute
adet as round(toplam_fiyat / birim_fiyat). -/
def lastikAdetDerive (l1 : Lastik) : Lastik :=
  if l1.toplam_fiyat ≠ 0 ∧ l1.birim_fiyat ≠ 0 ∧ 0 < l1.birim_fiyat then
    { l1 with adet := roundHalfEven (l1.toplam_fiyat / l1.birim_fiyat) }
  else l1

/-- LastikEnvanteri.save (store/models.py lines 192-201): the two blocks in
source order, then the actual write (modelled by returning the record). -/
def lastikSave (l : Lastik) : Lastik :=
  lastikAdetDerive (lastikDurumDefault l)

/-- C1: for every inventory record being saved, if toplam_fiyat is set
(nonzero) and birim_fiyat > 0, the stored adet equals
round(toplam_fiyat / birim_fiyat), whatever adet the caller supplied. -/
theorem lastik_envanteri_save_derives_adet (r : Lastik)
    (ht : r.toplam_fiyat ≠ 0) (hb : 0 < r.birim_fiyat) :
    (lastikSave r).adet = roundHalfEven (r.toplam_fiyat / r.birim_fiyat) := by
  have hb' : r.birim_fiyat ≠ 0 := ne_of_gt hb
  unfold lastikSave lastikAdetDerive lastikDurumDefault
  by_cases hd : r.durum = "" <;> simp [hd, ht, hb, hb']

/-- C1 witness: a record with birim_fiyat = 200, toplam_fiyat = 1000 and a
caller-supplied adet of 99 stores adet = 5 after save. -/
theorem lastik_envanteri_save_derives_adet_witness :
    (Lastik.mk 1 "CARI" "URUN" "MARKA" "BINEK" (some "YAZ") 99 200 1000
      "YOLDA" "STOK" none false false none (some 1) false 0 0).toplam_fiyat ≠ 0 ∧
    0 < (Lastik.mk 1 "CARI" "URUN" "MARKA" "BINEK" (some "YAZ") 99 200 1000
      "YOLDA" "STOK" none false false none (some 1) false 0 0).birim_fiyat ∧
    (lastikSave (Lastik.mk 1 "CARI" "URUN" "MARKA" "BINEK" (some "YAZ") 99 200 1000
      "YOLDA" "STOK" none false false none (some 1) false 0 0)).adet = 5 :=
  ⟨by decide, by decide,
    (lastik_envanteri_save_derives_adet _ (by decide) (by decide)).trans (by
      show roundHalfEven ((1000 : ℚ) / 200) = 5
      have h : (1000 : ℚ) / 200 = 5 := by norm_num
      rw [h]; decide)⟩

/-- store.models.Item: a catalog item; category is carried as the category
name the foreign key resolves to. -/
structure Item where
  id : Nat
  user : Option Nat
  name : String
  description : Option String
  category : String
  quantity : ℤ
  price : ℚ
  brand : Option String
  group : Option String
  season : Option String
  currency : String
deriving DecidableEq

/-- transactions.models.Purchase: a vendor purchase order. The linked Item
instance is passed alongside rather than stored, mirroring the object
reference self.item that save mutates. -/
structure Purchase where
  id : Nat
  user : Option Nat
  description : Option String
  quantity : ℕ
  delivery_status : String
  price : ℚ
  total_value : ℚ
  durum : String
  marka : Option String
  urun : Option String
  dot : Option String
  mevsim : Option String
deriving DecidableEq

/-- Purchase.save (transactions/models.py lines 208-217): recompute
total_value = price * quantity, persist, then, when a linked item exists,
increment that item's quantity by the purchase's quantity and persist the
item. Runs this way on every save call, create or update alike. -/
def purchaseSave (p : Purchase) (item : Option Item) : Purchase × Option Item :=
  let p1 := { p with total_value := p.price * (p.quantity : ℚ) }
  match item with
  | some it => (p1, some { it with quantity := it.quantity + (p.quantity : ℤ) })
  | none => (p1, none)

/-- C2: every save of a Purchase with a non-null linked Item adds the
purchase quantity to the item's quantity; two consecutive saves add it
twice, and concretely a purchase of quantity 5 saved twice against an item
holding 10 leaves the item at 20. -/
theorem purchase_save_increments_item_quantity :
    (∀ (p : Purchase) (it : Item),
      (purchaseSave p (some it)).2 = some { it with quantity := it.quantity + (p.quantity : ℤ) })
    ∧ (∀ (p : Purchase) (it : Item),
      (purchaseSave (purchaseSave p (some it)).1 (purchaseSave p (some it)).2).2 =
        some { it with quantity := it.quantity + 2 * (p.quantity : ℤ) })
    ∧ ((purchaseSave
          (purchaseSave (Purchase.mk 1 (some 1) none 5 "P" 0 0 "IYI" none none none none)
            (some (Item.mk 1 (some 1) "Lastik" none "Kategori" 10 0 none none none "TRY"))).1
          (purchaseSave (Purchase.mk 1 (some 1) none 5 "P" 0 0 "IYI" none none none none)
            (some (Item.mk 1 (some 1) "Lastik" none "Kategori" 10 0 none none none "TRY"))).2).2 =
        some (Item.mk 1 (some 1) "Lastik" none "Kategori" 20 0 none none none "TRY")) := by
  refine ⟨fun p it => rfl, fun p it => ?_, by decide⟩
  simp [purchaseSave, two_mul, add_assoc]

/-- Does the first character list start with the second one? -/
def listStartsWith : List Char → List Char → Bool
  | _, [] => true
  | [], _ :: _ => false
  | h :: hs, n :: ns => h == n && listStartsWith hs ns

/-- Substring test on character lists. -/
def listContainsSub : List Char → List Char → Bool
  | [], needle => needle.isEmpty
  | h :: t, needle => listStartsWith (h :: t) needle || listContainsSub t needle

/-- Python's str.upper() / SQL UPPER, written on the character list so it
evaluates in the kernel. -/
def pyUpper (s : String) : String :=
  String.mk (s.toList.map Char.toUpper)

/-- Python's str.lower(), written on the character list so it evaluates in
the kernel. -/
def pyLower (s : String) : String :=
  String.mk (s.toList.map Char.toLower)

/-- Django's icontains lookup: case-insensitive substring match. -/
def icontains (hay needle : String) : Bool :=
  listContainsSub (pyLower hay).toList (pyLower needle).toList

/-- Insert into a list sorted by the boolean relation le. -/
def insertSorted (le : α → α → Bool) (a : α) : List α → List α
  | [] => [a]
  | b :: bs => if le a b then a :: b :: bs else b :: insertSorted le a bs

/-- Insertion sort by the boolean relation le; models an order_by clause. -/
def sortByBool (le : α → α → Bool) : List α → List α
  | [] => []
  | a :: as => insertSorted le a (sortByBool le as)

theorem mem_insertSorted (le : α → α → Bool) (a x : α) (l : List α) :
    x ∈ insertSorted le a l ↔ x = a ∨ x ∈ l := by
  induction l with
  | nil => simp [insertSorted]
  | cons b bs ih =>
    simp only [insertSorted]
    split
    · simp
    · simp [ih]; tauto

theorem mem_sortByBool (le : α → α → Bool) (x : α) (l : List α) :
    x ∈ sortByBool le l ↔ x ∈ l := by
  induction l with
  | nil => simp [sortByBool]
  | cons a as ih => simp [sortByBool, mem_insertSorted, ih]

/-- store.models.Category. -/
structure Category where
  id : Nat
  user : Option Nat
  name : String
deriving DecidableEq

/-- store.models.Delivery. -/
structure Delivery where
  id : Nat
  user : Option Nat
  item : Option Nat
  customer_name : Option String
  phone_number : Option String
  location : Option String
  date : ℤ
  is_delivered : Bool
deriving DecidableEq

/-- transactions.models.Sale (header fields relevant to listing). -/
structure Sale where
  id : Nat
  user : Option Nat
  is_removed : Bool
  grand_total : ℚ
deriving DecidableEq

/-- ProductListView.get_queryset (store/views.py lines 326-330): admin and
superuser see every item, anyone else only their own. -/
def productListQueryset (u : Kullanici) (db : List Item) : List Item :=
  if isAdmin u then db else db.filter (fun i => i.user == some u.id)

/-- CategoryListView.get_queryset (store/views.py lines 567-571). -/
def categoryListQueryset (u : Kullanici) (db : List Category) : List Category :=
  if isAdmin u then db else db.filter (fun c => c.user == some u.id)

/-- DeliveryListView (store/views.py lines 448-464): the view declares no
get_queryset override, so the default queryset of the model is used and
every row is returned to any authenticated user, whoever owns it. -/
def deliveryListQueryset (u : Kullanici) (db : List Delivery) : List Delivery :=
  db

/-- Modelled from the spec: the Sale list view's ownership filter. The
transactions app's view module is not under src (only its models, forms and
tables are), so this follows the spec's visibility rule: admin or superuser
sees all rows, otherwise only rows whose owning-user foreign key equals the
acting user. -/
def saleListQueryset (u : Kullanici) (db : List Sale) : List Sale :=
  if isAdmin u then db else db.filter (fun s => s.user == some u.id)

/-- GET parameters read by the tire-inventory list views. A date parameter
is the parsed date, or none when absent or malformed (strptime failures are
swallowed and the filter skipped); now is timezone.now() in days. -/
structure LastikListParams where
  durum : Option String
  cari : Option String
  marka : Option String
  grup : Option String
  mevsim : Option String
  ambar : Option String
  tarih_filtresi : Option String
  baslangic_tarihi : Option ℤ
  bitis_tarihi : Option ℤ
  now : ℤ
deriving DecidableEq

/-- A request carrying no GET parameters. -/
def noParams : LastikListParams :=
  LastikListParams.mk none none none none none none none none none 0

/-- A query parameter guard: Python's if param: applies the filter only for
a present, non-empty string. -/
def filterIfParam (o : Option String) (pred : String → Lastik → Bool)
    (q : List Lastik) : List Lastik :=
  match o with
  | some s => if s = "" then q else q.filter (pred s)
  | none => q

/-- The tarih_filtresi branch shared by the tire list views: fixed windows
of the last 30/90/180 days from now, or a custom range whose bounds are
each applied only when they parsed. -/
def tarihFiltre (kind : String) (p : LastikListParams)
    (q : List Lastik) : List Lastik :=
  if kind = "1_ay" then q.filter (fun l => decide (p.now - 30 ≤ l.olusturma_tarihi))
  else if kind = "3_ay" then q.filter (fun l => decide (p.now - 90 ≤ l.olusturma_tarihi))
  else if kind = "6_ay" then q.filter (fun l => decide (p.now - 180 ≤ l.olusturma_tarihi))
  else if kind = "custom" then
    let q1 :=
      match p.baslangic_tarihi with
      | some d => q.filter (fun l => decide (d ≤ l.olusturma_tarihi))
      | none => q
    match p.bitis_tarihi with
    | some d => q1.filter (fun l => decide (l.olusturma_tarihi ≤ d))
    | none => q1
  else q

/-- The GET-parameter filter chain of LastikEnvanteriListView.get_queryset
(store/views.py lines 664-718): durum, cari, marka, grup, ambar, then the
date window. -/
def lastikListParamFilters (p : LastikListParams) (q0 : List Lastik) : List Lastik :=
  let q1 := filterIfParam p.durum (fun d l => l.durum == d) q0
  let q2 := filterIfParam p.cari (fun c l => icontains l.cari (pyUpper c)) q1
  let q3 := filterIfParam p.marka (fun m l => icontains l.marka (pyUpper m)) q2
  let q4 := filterIfParam p.grup (fun g l => l.grup == g) q3
  let q5 := filterIfParam p.ambar (fun a l => l.ambar == a) q4
  match p.tarih_filtresi with
  | some s => if s = "" then q5 else tarihFiltre s p q5
  | none => q5

/-- LastikEnvanteriListView.get_queryset (store/views.py lines 654-720):
ownership split, base exclusions of removed, reviewed and cancelled rows,
the optional GET filters, and descending creation-date ordering. -/
def lastikEnvanteriListQueryset (u : Kullanici) (p : LastikListParams)
    (db : List Lastik) : List Lastik :=
  let q0 :=
    if isAdmin u then
      ((db.filter (fun l => l.is_removed == false)).filter
        (fun l => !(l.durum == "KONTROL_EDILDI"))).filter
        (fun l => !(l.durum == "IPTAL_EDILDI"))
    else
      ((db.filter (fun l => l.user == some u.id && l.is_removed == false)).filter
        (fun l => !(l.durum == "KONTROL_EDILDI"))).filter
        (fun l => !(l.durum == "IPTAL_EDILDI"))
  sortByBool (fun a b => decide (b.olusturma_tarihi ≤ a.olusturma_tarihi))
    (lastikListParamFilters p q0)

/-- The GET-parameter filter chain of KontrolEdildiListView.get_queryset
(store/views.py lines 940-994): cari, marka, grup, mevsim, ambar, then the
date window. -/
def kontrolParamFilters (p : LastikListParams) (q0 : List Lastik) : List Lastik :=
  let q1 := filterIfParam p.cari (fun c l => icontains l.cari (pyUpper c)) q0
  let q2 := filterIfParam p.marka (fun m l => icontains l.marka (pyUpper m)) q1
  let q3 := filterIfParam p.grup (fun g l => l.grup == g) q2
  let q4 := filterIfParam p.mevsim (fun m l => l.mevsim == some m) q3
  let q5 := filterIfParam p.ambar (fun a l => l.ambar == a) q4
  match p.tarih_filtresi with
  | some s => if s = "" then q5 else tarihFiltre s p q5
  | none => q5

/-- KontrolEdildiListView.get_queryset (store/views.py lines 930-996): only
reviewed, non-removed rows, the ownership split, the optional GET filters
(including mevsim), and descending creation-date ordering. -/
def kontrolEdildiListQueryset (u : Kullanici) (p : LastikListParams)
    (db : List Lastik) : List Lastik :=
  let q0 :=
    if isAdmin u then
      db.filter (fun l => l.is_removed == false && l.durum == "KONTROL_EDILDI")
    else
      db.filter (fun l =>
        l.user == some u.id && l.is_removed == false && l.durum == "KONTROL_EDILDI")
  sortByBool (fun a b => decide (b.olusturma_tarihi ≤ a.olusturma_tarihi))
    (kontrolParamFilters p q0)

theorem mem_filterIfParam (o : Option String) (pred : String → Lastik → Bool)
    (q : List Lastik) (x : Lastik) : x ∈ filterIfParam o pred q → x ∈ q := by
  cases o with
  | none => exact fun h => h
  | some s =>
    simp only [filterIfParam]
    split
    · exact fun h => h
    · exact fun h => (List.mem_filter.mp h).1

theorem mem_tarihFiltre (kind : String) (p : LastikListParams)
    (q : List Lastik) (x : Lastik) : x ∈ tarihFiltre kind p q → x ∈ q := by
  intro h
  unfold tarihFiltre at h
  split at h
  · exact (List.mem_filter.mp h).1
  · split at h
    · exact (List.mem_filter.mp h).1
    · split at h
      · exact (List.mem_filter.mp h).1
      · split at h
        · rcases hB : p.baslangic_tarihi with _ | d <;>
            rcases hC : p.bitis_tarihi with _ | e <;>
            simp only [hB, hC] at h <;>
            first
              | exact h
              | exact (List.mem_filter.mp h).1
              | exact (List.mem_filter.mp (List.mem_filter.mp h).1).1
        · exact h

theorem mem_lastikListParamFilters (p : LastikListParams) (q0 : List Lastik)
    (x : Lastik) (h : x ∈ lastikListParamFilters p q0) : x ∈ q0 := by
  simp only [lastikListParamFilters] at h
  have h5 : x ∈ filterIfParam p.ambar (fun a l => l.ambar == a)
      (filterIfParam p.grup (fun g l => l.grup == g)
        (filterIfParam p.marka (fun m l => icontains l.marka (pyUpper m))
          (filterIfParam p.cari (fun c l => icontains l.cari (pyUpper c))
            (filterIfParam p.durum (fun d l => l.durum == d) q0)))) := by
    rcases hT : p.tarih_filtresi with _ | s
    · simpa only [hT] using h
    · simp only [hT] at h
      split at h
      · exact h
      · exact mem_tarihFiltre _ _ _ _ h
  exact mem_filterIfParam _ _ _ _ (mem_filterIfParam _ _ _ _ (mem_filterIfParam _ _ _ _
    (mem_filterIfParam _ _ _ _ (mem_filterIfParam _ _ _ _ h5))))

theorem mem_kontrolParamFilters (p : LastikListParams) (q0 : List Lastik)
    (x : Lastik) (h : x ∈ kontrolParamFilters p q0) : x ∈ q0 := by
  simp only [kontrolParamFilters] at h
  have h5 : x ∈ filterIfParam p.ambar (fun a l => l.ambar == a)
      (filterIfParam p.mevsim (fun m l => l.mevsim == some m)
        (filterIfParam p.grup (fun g l => l.grup == g)
          (filterIfParam p.marka (fun m l => icontains l.marka (pyUpper m))
            (filterIfParam p.cari (fun c l => icontains l.cari (pyUpper c)) q0)))) := by
    rcases hT : p.tarih_filtresi with _ | s
    · simpa only [hT] using h
    · simp only [hT] at h
      split at h
      · exact h
      · exact mem_tarihFiltre _ _ _ _ h
  exact mem_filterIfParam _ _ _ _ (mem_filterIfParam _ _ _ _ (mem_filterIfParam _ _ _ _
    (mem_filterIfParam _ _ _ _ (mem_filterIfParam _ _ _ _ h5))))

theorem lastikList_mem_facts (u : Kullanici) (p : LastikListParams)
    (db : List Lastik) (r : Lastik) (h : r ∈ lastikEnvanteriListQueryset u p db) :
    r ∈ db ∧ r.is_removed = false ∧ r.durum ≠ "KONTROL_EDILDI" ∧
      r.durum ≠ "IPTAL_EDILDI" ∧ (isAdmin u = false → r.user = some u.id) := by
  simp only [lastikEnvanteriListQueryset] at h
  rw [mem_sortByBool] at h
  replace h := mem_lastikListParamFilters _ _ _ h
  split at h
  case isTrue hadm =>
    have h1 := List.mem_filter.mp h
    have h2 := List.mem_filter.mp h1.1
    have h3 := List.mem_filter.mp h2.1
    refine ⟨h3.1, by simpa using h3.2, ?_, ?_, ?_⟩
    · simpa using h2.2
    · simpa using h1.2
    · intro hF; rw [hF] at hadm; cases hadm
  case isFalse hadm =>
    have h1 := List.mem_filter.mp h
    have h2 := List.mem_filter.mp h1.1
    have h3 := List.mem_filter.mp h2.1
    have h4 : r.user = some u.id ∧ r.is_removed = false := by
      have := h3.2
      simp at this
      exact this
    refine ⟨h3.1, h4.2, ?_, ?_, fun _ => h4.1⟩
    · simpa using h2.2
    · simpa using h1.2

/-- C3 counterexample: a non-admin, non-superuser user's delivery list
contains a row owned by a different user, because DeliveryListView applies
no ownership filter at all. -/
theorem delivery_list_ownership_counterexample :
    isAdmin (Kullanici.mk 1 false "OP") = false ∧
    Delivery.mk 7 (some 2) none none none none 0 false ∈
      deliveryListQueryset (Kullanici.mk 1 false "OP")
        [Delivery.mk 7 (some 2) none none none none 0 false] ∧
    (Delivery.mk 7 (some 2) none none none none 0 false).user ≠
      some (Kullanici.mk 1 false "OP").id := by
  refine ⟨by decide, ?_, by decide⟩
  simp [deliveryListQueryset]

/-- C3 amended: for every non-admin, non-superuser user, the Item, Category,
InventoryRecord and (spec-modelled) Sale list operations return only rows
owned by that user; the Delivery list view applies no ownership filter and
returns the whole table to any authenticated user. -/
theorem ownership_filter_nonadmin_lists (u : Kullanici) (h : isAdmin u = false) :
    (∀ (db : List Item) (i : Item), i ∈ productListQueryset u db → i.user = some u.id)
    ∧ (∀ (db : List Category) (c : Category),
        c ∈ categoryListQueryset u db → c.user = some u.id)
    ∧ (∀ (db : List Sale) (s : Sale), s ∈ saleListQueryset u db → s.user = some u.id)
    ∧ (∀ (p : LastikListParams) (db : List Lastik) (r : Lastik),
        r ∈ lastikEnvanteriListQueryset u p db → r.user = some u.id)
    ∧ (∀ db : List Delivery, deliveryListQueryset u db = db) := by
  refine ⟨?_, ?_, ?_, ?_, fun db => rfl⟩
  · intro db i hi
    rw [productListQueryset, if_neg (by simp [h])] at hi
    simpa using (List.mem_filter.mp hi).2
  · intro db c hc
    rw [categoryListQueryset, if_neg (by simp [h])] at hc
    simpa using (List.mem_filter.mp hc).2
  · intro db s hs
    rw [saleListQueryset, if_neg (by simp [h])] at hs
    simpa using (List.mem_filter.mp hs).2
  · intro p db r hr
    exact (lastikList_mem_facts u p db r hr).2.2.2.2 h

/-- C3 amended witness: a concrete non-admin user and concrete one-row
tables; the rows the user sees are their own. -/
theorem ownership_filter_nonadmin_lists_witness :
    isAdmin (Kullanici.mk 1 false "OP") = false ∧
    (Item.mk 3 (some 1) "Lastik" none "Kategori" 4 0 none none none "TRY").user =
      some (Kullanici.mk 1 false "OP").id ∧
    (Lastik.mk 9 "CARI" "URUN" "MARKA" "BINEK" (some "YAZ") 1 0 0 "YOLDA" "STOK"
      none false false none (some 1) false 0 0).user =
      some (Kullanici.mk 1 false "OP").id :=
  ⟨by decide,
    (ownership_filter_nonadmin_lists (Kullanici.mk 1 false "OP") (by decide)).1
      [Item.mk 3 (some 1) "Lastik" none "Kategori" 4 0 none none none "TRY"]
      (Item.mk 3 (some 1) "Lastik" none "Kategori" 4 0 none none none "TRY")
      (by decide),
    (ownership_filter_nonadmin_lists (Kullanici.mk 1 false "OP")
      (by decide)).2.2.2.1 noParams
      [Lastik.mk 9 "CARI" "URUN" "MARKA" "BINEK" (some "YAZ") 1 0 0 "YOLDA" "STOK"
        none false false none (some 1) false 0 0]
      (Lastik.mk 9 "CARI" "URUN" "MARKA" "BINEK" (some "YAZ") 1 0 0 "YOLDA" "STOK"
        none false false none (some 1) false 0 0)
      (by decide)⟩

theorem kontrolParamFilters_noParams (q : List Lastik) :
    kontrolParamFilters noParams q = q := rfl

/-- C9: for every user the main tire list contains only live rows that are
neither reviewed nor cancelled; a reviewed record is absent from the main
list under any filter parameters, and (when visible to the user) present in
the dedicated reviewed-records view. -/
theorem main_list_excludes_reviewed_and_cancelled (u : Kullanici)
    (p : LastikListParams) (db : List Lastik) (r : Lastik) :
    (r ∈ lastikEnvanteriListQueryset u p db →
      r.is_removed = false ∧ r.durum ≠ "KONTROL_EDILDI" ∧ r.durum ≠ "IPTAL_EDILDI")
    ∧ (r.durum = "KONTROL_EDILDI" → r ∉ lastikEnvanteriListQueryset u p db)
    ∧ (r ∈ db → r.is_removed = false → r.durum = "KONTROL_EDILDI" →
        (isAdmin u = true ∨ r.user = some u.id) →
        r ∈ kontrolEdildiListQueryset u noParams db) := by
  refine ⟨fun h => ?_, fun hd h => ?_, fun hmem hrem hdur hvis => ?_⟩
  · have hf := lastikList_mem_facts u p db r h
    exact ⟨hf.2.1, hf.2.2.1, hf.2.2.2.1⟩
  · exact (lastikList_mem_facts u p db r h).2.2.1 hd
  · simp only [kontrolEdildiListQueryset]
    rw [mem_sortByBool, kontrolParamFilters_noParams]
    split
    · exact List.mem_filter.mpr ⟨hmem, by simp [hrem, hdur]⟩
    · case isFalse hA =>
        rcases hvis with hadm | hown
        · exact absurd hadm hA
        · exact List.mem_filter.mpr ⟨hmem, by simp [hown, hrem, hdur]⟩

/-- C9 witness: a concrete reviewed record is out of the main list and in
the reviewed-records list of its owner. -/
theorem main_list_excludes_reviewed_and_cancelled_witness :
    (Lastik.mk 4 "CARI" "URUN" "MARKA" "BINEK" (some "KIS") 2 0 0 "KONTROL_EDILDI"
      "STOK" none false false none (some 1) false 0 0).durum = "KONTROL_EDILDI" ∧
    (Lastik.mk 4 "CARI" "URUN" "MARKA" "BINEK" (some "KIS") 2 0 0 "KONTROL_EDILDI"
      "STOK" none false false none (some 1) false 0 0) ∉
      lastikEnvanteriListQueryset (Kullanici.mk 1 false "OP") noParams
        [Lastik.mk 4 "CARI" "URUN" "MARKA" "BINEK" (some "KIS") 2 0 0 "KONTROL_EDILDI"
          "STOK" none false false none (some 1) false 0 0] ∧
    (Lastik.mk 4 "CARI" "URUN" "MARKA" "BINEK" (some "KIS") 2 0 0 "KONTROL_EDILDI"
      "STOK" none false false none (some 1) false 0 0) ∈
      kontrolEdildiListQueryset (Kullanici.mk 1 false "OP") noParams
        [Lastik.mk 4 "CARI" "URUN" "MARKA" "BINEK" (some "KIS") 2 0 0 "KONTROL_EDILDI"
          "STOK" none false false none (some 1) false 0 0] :=
  ⟨by decide,
    (main_list_excludes_reviewed_and_cancelled (Kullanici.mk 1 false "OP") noParams
      [Lastik.mk 4 "CARI" "URUN" "MARKA" "BINEK" (some "KIS") 2 0 0 "KONTROL_EDILDI"
        "STOK" none false false none (some 1) false 0 0]
      (Lastik.mk 4 "CARI" "URUN" "MARKA" "BINEK" (some "KIS") 2 0 0 "KONTROL_EDILDI"
        "STOK" none false false none (some 1) false 0 0)).2.1 (by decide),
    (main_list_excludes_reviewed_and_cancelled (Kullanici.mk 1 false "OP") noParams
      [Lastik.mk 4 "CARI" "URUN" "MARKA" "BINEK" (some "KIS") 2 0 0 "KONTROL_EDILDI"
        "STOK" none false false none (some 1) false 0 0]
      (Lastik.mk 4 "CARI" "URUN" "MARKA" "BINEK" (some "KIS") 2 0 0 "KONTROL_EDILDI"
        "STOK" none false false none (some 1) false 0 0)).2.2
      (by decide) (by decide) (by decide) (Or.inr (by decide))⟩

/-- Python's str.strip(): drop leading and trailing whitespace. Written by
structural recursion on the character list so that it evaluates in the
kernel. -/
def pyStrip (s : String) : String :=
  String.mk (((s.toList.dropWhile Char.isWhitespace).reverse.dropWhile
    Char.isWhitespace).reverse)

/-- Failure classes of the cancel endpoint, per the spec's error taxonomy:
the record id does not resolve, the actor lacks rights, or the reason is
too short. The view reports these as JSON error payloads. -/
inductive CancelError where
  | notFound
  | permissionDenied
  | validationError
deriving DecidableEq

/-- Write one saved record back into the table through its primary key. -/
def replaceById (pk : Nat) (l1 : Lastik) (db : List Lastik) : List Lastik :=
  db.map (fun x => if x.id = pk then l1 else x)

/-- The record state written by a successful cancel: durum set to
IPTAL_EDILDI, the stripped reason stored, then save() applied. -/
def iptalKaydi (l : Lastik) (sebep : String) : Lastik :=
  lastikSave { l with durum := "IPTAL_EDILDI", iptal_sebebi := some sebep }

/-- lastik_envanteri_cancel (store/views.py lines 1084-1117): fetch the live
record by pk, check that the actor is superuser, has the admin role or owns
the record, strip the posted reason and require at least 3 characters, then
set durum to IPTAL_EDILDI, store the reason and save. On any failure the
table is left untouched. -/
def lastikEnvanteriCancel (u : Kullanici) (pk : Nat) (iptal_sebebi : String)
    (db : List Lastik) : Except CancelError Unit × List Lastik :=
  match db.find? (fun l => l.id == pk && l.is_removed == false) with
  | none => (Except.error CancelError.notFound, db)
  | some lastik =>
    if !u.is_superuser && !(u.role == "AD") && !(lastik.user == some u.id) then
      (Except.error CancelError.permissionDenied, db)
    else
      let sebep := pyStrip iptal_sebebi
      if sebep == "" || sebep.length < 3 then
        (Except.error CancelError.validationError, db)
      else
        (Except.ok (), replaceById pk (iptalKaydi lastik sebep) db)

theorem lastikDurumDefault_eq (l : Lastik) (h : l.durum ≠ "") :
    lastikDurumDefault l = l := by
  unfold lastikDurumDefault
  rw [if_neg h]

theorem lastikAdetDerive_durum (l : Lastik) :
    (lastikAdetDerive l).durum = l.durum := by
  unfold lastikAdetDerive
  split <;> rfl

theorem lastikAdetDerive_iptal_sebebi (l : Lastik) :
    (lastikAdetDerive l).iptal_sebebi = l.iptal_sebebi := by
  unfold lastikAdetDerive
  split <;> rfl

theorem lastikAdetDerive_sms_gonderildi (l : Lastik) :
    (lastikAdetDerive l).sms_gonderildi = l.sms_gonderildi := by
  unfold lastikAdetDerive
  split <;> rfl

theorem lastikDurumDefault_iptal_sebebi (l : Lastik) :
    (lastikDurumDefault l).iptal_sebebi = l.iptal_sebebi := by
  unfold lastikDurumDefault
  split <;> rfl

theorem lastikSave_durum (l : Lastik) (h : l.durum ≠ "") :
    (lastikSave l).durum = l.durum := by
  unfold lastikSave
  rw [lastikAdetDerive_durum, lastikDurumDefault_eq l h]

theorem lastikSave_iptal_sebebi (l : Lastik) :
    (lastikSave l).iptal_sebebi = l.iptal_sebebi := by
  unfold lastikSave
  rw [lastikAdetDerive_iptal_sebebi, lastikDurumDefault_iptal_sebebi]

theorem iptalKaydi_fields (l : Lastik) (sebep : String) :
    (iptalKaydi l sebep).durum = "IPTAL_EDILDI" ∧
    (iptalKaydi l sebep).iptal_sebebi = some sebep := by
  unfold iptalKaydi
  constructor
  · rw [lastikSave_durum _ (by simp)]
  · rw [lastikSave_iptal_sebebi]

/-- C4: for a permitted actor and a live record, cancelling with a reason
whose trimmed length is under 3 fails with the validation error and leaves
the table (hence the record's durum and iptal_sebebi) unchanged; with a
trimmed length of at least 3 it succeeds, the record is written back with
durum IPTAL_EDILDI and iptal_sebebi equal to the trimmed reason. -/
theorem lastik_envanteri_cancel_reason_validation (u : Kullanici) (pk : Nat)
    (reason : String) (db : List Lastik) (l : Lastik)
    (hfind : db.find? (fun x => x.id == pk && x.is_removed == false) = some l)
    (hperm : u.is_superuser = true ∨ u.role = "AD" ∨ l.user = some u.id) :
    ((pyStrip reason).length < 3 →
      lastikEnvanteriCancel u pk reason db =
        (Except.error CancelError.validationError, db))
    ∧ (3 ≤ (pyStrip reason).length →
      lastikEnvanteriCancel u pk reason db =
        (Except.ok (), replaceById pk (iptalKaydi l (pyStrip reason)) db) ∧
      (iptalKaydi l (pyStrip reason)).durum = "IPTAL_EDILDI" ∧
      (iptalKaydi l (pyStrip reason)).iptal_sebebi = some (pyStrip reason)) := by
  have hpermB : (!u.is_superuser && !(u.role == "AD") && !(l.user == some u.id)) = false := by
    rcases hperm with h | h | h <;> simp [h]
  constructor
  · intro hshort
    unfold lastikEnvanteriCancel
    rw [hfind]
    simp only [hpermB, Bool.false_eq_true, if_false]
    rw [if_pos]
    simp [hshort]
  · intro hlong
    have hne : (pyStrip reason) ≠ "" := by
      intro he
      rw [he] at hlong
      simp at hlong
    refine ⟨?_, (iptalKaydi_fields l (pyStrip reason)).1, (iptalKaydi_fields l (pyStrip reason)).2⟩
    unfold lastikEnvanteriCancel
    rw [hfind]
    simp only [hpermB, Bool.false_eq_true, if_false]
    rw [if_neg]
    simp [hne]
    omega

/-- C4 witness: the owner cancelling their live record with reason "ab"
fails validation and leaves the table unchanged; with "abc" it succeeds. -/
theorem lastik_envanteri_cancel_reason_validation_witness :
    lastikEnvanteriCancel (Kullanici.mk 1 false "OP") 1 "ab"
      [Lastik.mk 1 "CARI" "URUN" "MARKA" "BINEK" (some "YAZ") 1 0 0 "YOLDA" "STOK"
        none false false none (some 1) false 0 0] =
      (Except.error CancelError.validationError,
        [Lastik.mk 1 "CARI" "URUN" "MARKA" "BINEK" (some "YAZ") 1 0 0 "YOLDA" "STOK"
          none false false none (some 1) false 0 0]) ∧
    lastikEnvanteriCancel (Kullanici.mk 1 false "OP") 1 "abc"
      [Lastik.mk 1 "CARI" "URUN" "MARKA" "BINEK" (some "YAZ") 1 0 0 "YOLDA" "STOK"
        none false false none (some 1) false 0 0] =
      (Except.ok (),
        replaceById 1
          (iptalKaydi (Lastik.mk 1 "CARI" "URUN" "MARKA" "BINEK" (some "YAZ") 1 0 0
            "YOLDA" "STOK" none false false none (some 1) false 0 0) (pyStrip "abc"))
          [Lastik.mk 1 "CARI" "URUN" "MARKA" "BINEK" (some "YAZ") 1 0 0 "YOLDA" "STOK"
            none false false none (some 1) false 0 0]) :=
  ⟨(lastik_envanteri_cancel_reason_validation (Kullanici.mk 1 false "OP") 1 "ab"
      [Lastik.mk 1 "CARI" "URUN" "MARKA" "BINEK" (some "YAZ") 1 0 0 "YOLDA" "STOK"
        none false false none (some 1) false 0 0]
      (Lastik.mk 1 "CARI" "URUN" "MARKA" "BINEK" (some "YAZ") 1 0 0 "YOLDA" "STOK"
        none false false none (some 1) false 0 0)
      (by decide) (by decide)).1 (by decide),
   ((lastik_envanteri_cancel_reason_validation (Kullanici.mk 1 false "OP") 1 "abc"
      [Lastik.mk 1 "CARI" "URUN" "MARKA" "BINEK" (some "YAZ") 1 0 0 "YOLDA" "STOK"
        none false false none (some 1) false 0 0]
      (Lastik.mk 1 "CARI" "URUN" "MARKA" "BINEK" (some "YAZ") 1 0 0 "YOLDA" "STOK"
        none false false none (some 1) false 0 0)
      (by decide) (by decide)).2 (by decide)).1⟩

/-- C5: an actor who is neither superuser, nor admin-role, nor the owner of
the targeted live record gets the permission failure and the table, hence
the record with every one of its fields, is left exactly as it was. -/
theorem lastik_envanteri_cancel_permission_denied (u : Kullanici) (pk : Nat)
    (reason : String) (db : List Lastik) (l : Lastik)
    (hfind : db.find? (fun x => x.id == pk && x.is_removed == false) = some l)
    (hsu : u.is_superuser = false) (hrole : u.role ≠ "AD")
    (howner : l.user ≠ some u.id) :
    lastikEnvanteriCancel u pk reason db =
      (Except.error CancelError.permissionDenied, db) := by
  have hB : (!u.is_superuser && !(u.role == "AD") && !(l.user == some u.id)) = true := by
    simp [hsu, hrole, howner]
  unfold lastikEnvanteriCancel
  rw [hfind]
  simp [hB]

/-- C5 witness: user 2 (operator role) cannot cancel user 1's record; the
table survives unchanged. -/
theorem lastik_envanteri_cancel_permission_denied_witness :
    lastikEnvanteriCancel (Kullanici.mk 2 false "OP") 1 "gecerli sebep"
      [Lastik.mk 1 "CARI" "URUN" "MARKA" "BINEK" (some "YAZ") 1 0 0 "YOLDA" "STOK"
        none false false none (some 1) false 0 0] =
      (Except.error CancelError.permissionDenied,
        [Lastik.mk 1 "CARI" "URUN" "MARKA" "BINEK" (some "YAZ") 1 0 0 "YOLDA" "STOK"
          none false false none (some 1) false 0 0]) :=
  lastik_envanteri_cancel_permission_denied (Kullanici.mk 2 false "OP") 1
    "gecerli sebep"
    [Lastik.mk 1 "CARI" "URUN" "MARKA" "BINEK" (some "YAZ") 1 0 0 "YOLDA" "STOK"
      none false false none (some 1) false 0 0]
    (Lastik.mk 1 "CARI" "URUN" "MARKA" "BINEK" (some "YAZ") 1 0 0 "YOLDA" "STOK"
      none false false none (some 1) false 0 0)
    (by decide) (by decide) (by decide) (by decide)

/-- Python's x or default on a string field: the default replaces an empty
string. -/
def pyOrStr (s d : String) : String :=
  if s = "" then d else s

/-- Python's x or default on a nullable string field: the default replaces
both None and the empty string. -/
def pyOrOpt (o : Option String) (d : String) : String :=
  match o with
  | none => d
  | some s => if s = "" then d else s

/-- The season_group dictionary key built per row by the dashboard and the
reviewed-records view: f-string of mevsim or Belirtilmemis and grup or
Belirtilmemis joined by an underscore. -/
def seasonGroupKey (l : Lastik) : String :=
  pyOrOpt l.mevsim "Belirtilmemiş" ++ "_" ++ pyOrStr l.grup "Belirtilmemiş"

/-- One dictionary update step: dict.setdefault(key, 0); dict[key] += n on
an insertion-ordered association list. -/
def bumpKey (key : String) (n : ℤ) : List (String × ℤ) → List (String × ℤ)
  | [] => [(key, n)]
  | (k1, v) :: rest =>
    if k1 = key then (k1, v + n) :: rest else (k1, v) :: bumpKey key n rest

/-- dict.get(key, 0) on the association list. -/
def dictGet0 : List (String × ℤ) → String → ℤ
  | [], _ => 0
  | (k1, v) :: rest, k => if k1 = k then v else dictGet0 rest k

/-- The accumulation loop of the season-by-group chart (store/views.py
lines 1027-1034): fold the rows, adding each row's adet under its key. -/
def tireSalesBySeasonGroup (rows : List Lastik) : List (String × ℤ) :=
  rows.foldl (fun d l => bumpKey (seasonGroupKey l) l.adet d) []

/-- KontrolEdildiListView.get_context_data, tire sales analysis block
(store/views.py lines 1022-1051): restrict to live reviewed rows,
accumulate by season_group key, then read the six passenger/commercial
by summer/winter/all-season cells with default 0. -/
def tireSales3dData (db : List Lastik) : List (List ℤ) :=
  let data := db.filter (fun l => l.is_removed == false && l.durum == "KONTROL_EDILDI")
  let m := tireSalesBySeasonGroup data
  [[dictGet0 m "YAZ_BINEK", dictGet0 m "KIS_BINEK", dictGet0 m "4MEVSIM_BINEK"],
   [dictGet0 m "YAZ_TICARI", dictGet0 m "KIS_TICARI", dictGet0 m "4MEVSIM_TICARI"]]

/-- Sum of adet over the rows carrying a given season_group key. -/
def keySum (rows : List Lastik) (k : String) : ℤ :=
  ((rows.filter (fun l => seasonGroupKey l == k)).map Lastik.adet).sum

/-- Sum of adet over reviewed rows carrying a given season_group key: the
specification-side reading of one chart cell. -/
def reviewedKeySum (rows : List Lastik) (k : String) : ℤ :=
  ((rows.filter (fun l => l.durum == "KONTROL_EDILDI" && seasonGroupKey l == k)).map
    Lastik.adet).sum

/-- The chart matrix as the spec states it: per group and season, the sum
of adet over reviewed rows of that combination, 0 when none exist. -/
def seasonGroupMatrixSpec (rows : List Lastik) : List (List ℤ) :=
  [["YAZ_BINEK", "KIS_BINEK", "4MEVSIM_BINEK"].map (reviewedKeySum rows),
   ["YAZ_TICARI", "KIS_TICARI", "4MEVSIM_TICARI"].map (reviewedKeySum rows)]

theorem dictGet0_bumpKey (key k : String) (n : ℤ) (d : List (String × ℤ)) :
    dictGet0 (bumpKey key n d) k = dictGet0 d k + (if k = key then n else 0) := by
  induction d with
  | nil =>
    by_cases h : k = key
    · simp [bumpKey, dictGet0, h]
    · have h' : key ≠ k := fun hh => h hh.symm
      simp [bumpKey, dictGet0, h, h']
  | cons hd tl ih =>
    obtain ⟨k1, v1⟩ := hd
    by_cases h1 : k1 = key
    · subst h1
      by_cases h2 : k1 = k
      · subst h2
        simp [bumpKey, dictGet0]
      · have h2' : k ≠ k1 := fun hh => h2 hh.symm
        simp [bumpKey, dictGet0, h2, h2']
    · by_cases h2 : k1 = k
      · subst h2
        simp [bumpKey, dictGet0, h1]
      · simp [bumpKey, dictGet0, h1, h2, ih]

theorem dictGet0_fold (rows : List Lastik) (d : List (String × ℤ)) (k : String) :
    dictGet0 (rows.foldl (fun acc l => bumpKey (seasonGroupKey l) l.adet acc) d) k =
      dictGet0 d k + keySum rows k := by
  induction rows generalizing d with
  | nil => simp [keySum]
  | cons r rs ih =>
    simp only [List.foldl_cons]
    rw [ih, dictGet0_bumpKey]
    by_cases h : seasonGroupKey r = k
    · subst h
      simp [keySum, List.filter_cons]
      ring
    · have h' : ¬(k = seasonGroupKey r) := fun hh => h hh.symm
      simp [keySum, List.filter_cons, h, h']

theorem tireSalesBySeasonGroup_get (rows : List Lastik) (k : String) :
    dictGet0 (tireSalesBySeasonGroup rows) k = keySum rows k := by
  unfold tireSalesBySeasonGroup
  rw [dictGet0_fold]
  simp [dictGet0]

/-- C6: for any table of live rows, the season-by-group chart matrix is
exactly the 2-by-3 table of adet sums over reviewed rows per
passenger/commercial and summer/winter/all-season combination, absent
combinations giving 0. -/
theorem tire_sales_matrix_reviewed_only (rows : List Lastik)
    (h : ∀ r ∈ rows, r.is_removed = false) :
    tireSales3dData rows = seasonGroupMatrixSpec rows := by
  have hdata : rows.filter (fun l => l.is_removed == false && l.durum == "KONTROL_EDILDI")
      = rows.filter (fun l => l.durum == "KONTROL_EDILDI") := by
    apply List.filter_congr
    intro r hr
    simp [h r hr]
  have key : ∀ k,
      dictGet0 (tireSalesBySeasonGroup (rows.filter (fun l => l.durum == "KONTROL_EDILDI"))) k
        = reviewedKeySum rows k := by
    intro k
    rw [tireSalesBySeasonGroup_get]
    unfold keySum reviewedKeySum
    rw [List.filter_filter]
    apply congrArg List.sum
    apply congrArg (List.map Lastik.adet)
    apply List.filter_congr
    intro a _
    exact Bool.and_comm _ _
  simp only [tireSales3dData, seasonGroupMatrixSpec, hdata, key, List.map_cons, List.map_nil]

/-- C6 witness: the three rows of the claim (summer passenger 3 reviewed,
summer commercial 2 reviewed, winter passenger 0 en route) give the matrix
passenger [3, 0, 0], commercial [2, 0, 0]. -/
theorem tire_sales_matrix_reviewed_only_witness :
    (∀ r ∈ [Lastik.mk 1 "C1" "U1" "M1" "BINEK" (some "YAZ") 3 0 0 "KONTROL_EDILDI"
        "STOK" none false false none (some 1) false 0 0,
      Lastik.mk 2 "C2" "U2" "M2" "TICARI" (some "YAZ") 2 0 0 "KONTROL_EDILDI"
        "STOK" none false false none (some 1) false 0 0,
      Lastik.mk 3 "C3" "U3" "M3" "BINEK" (some "KIS") 0 0 0 "YOLDA"
        "STOK" none false false none (some 1) false 0 0], r.is_removed = false) ∧
    tireSales3dData
      [Lastik.mk 1 "C1" "U1" "M1" "BINEK" (some "YAZ") 3 0 0 "KONTROL_EDILDI"
        "STOK" none false false none (some 1) false 0 0,
      Lastik.mk 2 "C2" "U2" "M2" "TICARI" (some "YAZ") 2 0 0 "KONTROL_EDILDI"
        "STOK" none false false none (some 1) false 0 0,
      Lastik.mk 3 "C3" "U3" "M3" "BINEK" (some "KIS") 0 0 0 "YOLDA"
        "STOK" none false false none (some 1) false 0 0] = [[3, 0, 0], [2, 0, 0]] :=
  ⟨by decide,
    (tire_sales_matrix_reviewed_only
      [Lastik.mk 1 "C1" "U1" "M1" "BINEK" (some "YAZ") 3 0 0 "KONTROL_EDILDI"
        "STOK" none false false none (some 1) false 0 0,
      Lastik.mk 2 "C2" "U2" "M2" "TICARI" (some "YAZ") 2 0 0 "KONTROL_EDILDI"
        "STOK" none false false none (some 1) false 0 0,
      Lastik.mk 3 "C3" "U3" "M3" "BINEK" (some "KIS") 0 0 0 "YOLDA"
        "STOK" none false false none (some 1) false 0 0] (by decide)).trans (by decide)⟩

/-- One group-by step for the brand rollup: a new (brand, count 1, adet)
entry, or increment the count and adet sum of the existing entry. -/
def bumpBrand (key : String) (a : ℤ) : List (String × ℤ × ℤ) → List (String × ℤ × ℤ)
  | [] => [(key, 1, a)]
  | (k1, c, s) :: rest =>
    if k1 = key then (k1, c + 1, s + a) :: rest else (k1, c, s) :: bumpBrand key a rest

/-- lastik_dashboard brand distribution, grouping stage (store/views.py
lines 836-841): annotate every live row with Upper(marka) and aggregate
count of rows and sum of adet per uppercased brand. -/
def markaDagilimiGroups (db : List Lastik) : List (String × ℤ × ℤ) :=
  (db.filter (fun l => l.is_removed == false)).foldl
    (fun d l => bumpBrand (pyUpper l.marka) l.adet d) []

/-- lastik_dashboard brand distribution, presentation stage: order by
descending count and keep the first ten groups. -/
def markaDagilimi (db : List Lastik) : List (String × ℤ × ℤ) :=
  (sortByBool (fun x y => decide (y.2.1 ≤ x.2.1)) (markaDagilimiGroups db)).take 10

/-- Look a brand key up in the grouped rollup, returning its
(count, adet sum) cell. -/
def brandLookup : List (String × ℤ × ℤ) → String → Option (ℤ × ℤ)
  | [], _ => none
  | (k1, c, s) :: rest, k => if k1 = k then some (c, s) else brandLookup rest k

/-- The number of rows whose uppercased brand is k. -/
def brandCount (rows : List Lastik) (k : String) : ℤ :=
  ((rows.filter (fun l => pyUpper l.marka == k)).length : ℤ)

/-- The adet total of the rows whose uppercased brand is k. -/
def brandSum (rows : List Lastik) (k : String) : ℤ :=
  ((rows.filter (fun l => pyUpper l.marka == k)).map Lastik.adet).sum

theorem brandLookup_bumpBrand (key k : String) (a : ℤ) (d : List (String × ℤ × ℤ)) :
    brandLookup (bumpBrand key a d) k =
      if k = key then
        match brandLookup d k with
        | some (c, s) => some (c + 1, s + a)
        | none => some (1, a)
      else brandLookup d k := by
  induction d with
  | nil =>
    by_cases h : k = key
    · subst h
      simp [bumpBrand, brandLookup]
    · have h' : key ≠ k := fun hh => h hh.symm
      simp [bumpBrand, brandLookup, h, h']
  | cons hd tl ih =>
    obtain ⟨k1, c1, s1⟩ := hd
    by_cases h1 : k1 = key
    · subst h1
      by_cases h2 : k1 = k
      · subst h2
        simp [bumpBrand, brandLookup]
      · have h2' : ¬(k = k1) := fun hh => h2 hh.symm
        simp [bumpBrand, brandLookup, h2, h2']
    · by_cases h2 : k1 = k
      · subst h2
        have h1' : ¬(k1 = key) := h1
        simp [bumpBrand, brandLookup, h1, h1']
      · simp [bumpBrand, brandLookup, h1, h2, ih]

theorem brandLookup_fold (rows : List Lastik) (d : List (String × ℤ × ℤ)) (k : String) :
    brandLookup (rows.foldl (fun acc l => bumpBrand (pyUpper l.marka) l.adet acc) d) k =
      match brandLookup d k with
      | some (c, s) => some (c + brandCount rows k, s + brandSum rows k)
      | none =>
        if brandCount rows k = 0 then none
        else some (brandCount rows k, brandSum rows k) := by
  induction rows generalizing d with
  | nil =>
    cases hd : brandLookup d k with
    | none => simp [brandCount, brandSum, hd]
    | some cs => obtain ⟨c, s⟩ := cs; simp [brandCount, brandSum, hd]
  | cons r rs ih =>
    simp only [List.foldl_cons]
    rw [ih, brandLookup_bumpBrand]
    by_cases h : pyUpper r.marka = k
    · have h' : k = pyUpper r.marka := h.symm
      rw [if_pos h']
      have hcnt : brandCount (r :: rs) k = brandCount rs k + 1 := by
        simp [brandCount, List.filter_cons, h]
      have hsum : brandSum (r :: rs) k = r.adet + brandSum rs k := by
        simp [brandSum, List.filter_cons, h]
      cases hd : brandLookup d k with
      | none =>
        have hpos : ¬(brandCount rs k + 1 = 0) := by
          have hnn : (0 : ℤ) ≤ brandCount rs k := by
            unfold brandCount
            positivity
          omega
        have hpos2 : ¬(brandCount (r :: rs) k = 0) := by rw [hcnt]; exact hpos
        simp [hcnt, hsum, hpos, hpos2]
        ring
      | some cs =>
        obtain ⟨c, s⟩ := cs
        simp [hcnt, hsum]
        ring_nf
        constructor <;> ring
    · have h' : ¬(k = pyUpper r.marka) := fun hh => h hh.symm
      rw [if_neg h']
      have hcnt : brandCount (r :: rs) k = brandCount rs k := by
        simp [brandCount, List.filter_cons, h]
      have hsum : brandSum (r :: rs) k = brandSum rs k := by
        simp [brandSum, List.filter_cons, h]
      rw [hcnt, hsum]

/-- C7 amended: in the tire-dashboard brand rollup, the bucket keyed by an
uppercased brand name aggregates the count and adet total of all live rows
whose marka uppercases to that key, whatever mix of letter cases they are
stored in; no key is duplicated and absent brands have no bucket. -/
theorem lastik_dashboard_brand_rollup_case_insensitive (db : List Lastik) (k : String) :
    brandLookup (markaDagilimiGroups db) k =
      if brandCount (db.filter (fun l => l.is_removed == false)) k = 0 then none
      else
        some (brandCount (db.filter (fun l => l.is_removed == false)) k,
          brandSum (db.filter (fun l => l.is_removed == false)) k) := by
  unfold markaDagilimiGroups
  rw [brandLookup_fold]
  simp [brandLookup]

/-- The dashboard's tire queryset (store/views.py lines 136-148): live rows
in the selected year window, cancelled rows excluded, with the ownership
split. -/
def dashboardLastikQueryset (u : Kullanici) (start_date end_date : ℤ)
    (db : List Lastik) : List Lastik :=
  if isAdmin u then
    (db.filter (fun l => l.is_removed == false &&
      decide (start_date ≤ l.olusturma_tarihi) &&
      decide (l.olusturma_tarihi ≤ end_date))).filter
      (fun l => !(l.durum == "IPTAL_EDILDI"))
  else
    (db.filter (fun l => l.user == some u.id && l.is_removed == false &&
      decide (start_date ≤ l.olusturma_tarihi) &&
      decide (l.olusturma_tarihi ≤ end_date))).filter
      (fun l => !(l.durum == "IPTAL_EDILDI"))

/-- The dashboard's brand distribution (store/views.py lines 159-161):
values("marka").annotate(total_adet=Sum("adet")) groups by the RAW marka
value, with no case normalization. -/
def lastikMarkaCounts (u : Kullanici) (start_date end_date : ℤ)
    (db : List Lastik) : List (String × ℤ) :=
  (dashboardLastikQueryset u start_date end_date db).foldl
    (fun d l => bumpKey l.marka l.adet d) []

/-- C7 counterexample: two rows whose brands differ only in letter case
("Michelin" and "MICHELIN") produce two separate buckets in the main
dashboard's brand rollup, labelled by the raw values, not one bucket keyed
by the uppercased name. -/
theorem dashboard_brand_rollup_case_sensitive_counterexample :
    pyUpper (Lastik.mk 1 "C1" "U1" "Michelin" "BINEK" (some "YAZ") 3 0 0 "YOLDA" "STOK"
      none false false none (some 1) false 5 0).marka =
      pyUpper (Lastik.mk 2 "C2" "U2" "MICHELIN" "BINEK" (some "YAZ") 2 0 0 "YOLDA" "STOK"
        none false false none (some 1) false 5 0).marka ∧
    (Lastik.mk 1 "C1" "U1" "Michelin" "BINEK" (some "YAZ") 3 0 0 "YOLDA" "STOK"
      none false false none (some 1) false 5 0).marka ≠
      (Lastik.mk 2 "C2" "U2" "MICHELIN" "BINEK" (some "YAZ") 2 0 0 "YOLDA" "STOK"
        none false false none (some 1) false 5 0).marka ∧
    lastikMarkaCounts (Kullanici.mk 1 true "AD") 0 10
      [Lastik.mk 1 "C1" "U1" "Michelin" "BINEK" (some "YAZ") 3 0 0 "YOLDA" "STOK"
        none false false none (some 1) false 5 0,
       Lastik.mk 2 "C2" "U2" "MICHELIN" "BINEK" (some "YAZ") 2 0 0 "YOLDA" "STOK"
        none false false none (some 1) false 5 0] =
      [("Michelin", 3), ("MICHELIN", 2)] := by
  refine ⟨by decide, by decide, by decide⟩

theorem lastikDurumDefault_sms_gonderildi (l : Lastik) :
    (lastikDurumDefault l).sms_gonderildi = l.sms_gonderildi := by
  unfold lastikDurumDefault
  split <;> rfl

theorem lastikSave_sms_gonderildi (l : Lastik) :
    (lastikSave l).sms_gonderildi = l.sms_gonderildi := by
  unfold lastikSave
  rw [lastikAdetDerive_sms_gonderildi, lastikDurumDefault_sms_gonderildi]

/-- get_durum_display: the human label of each status code from
DURUM_CHOICES; an unknown code displays as itself. -/
def durumDisplay (d : String) : String :=
  if d = "YOLDA" then "Yolda"
  else if d = "ISLEM_DEVAM_EDIYOR" then "İşlem Devam Ediyor"
  else if d = "TESLIM_EDILDI" then "Teslim Edildi"
  else if d = "KONTROL_EDILDI" then "Kontrol Edildi"
  else if d = "IPTAL_EDILDI" then "İptal Edildi"
  else d

/-- The message template of whatsapp_gonder (store/views.py lines 882-890),
with the formatted local update timestamp passed in as tarih. -/
def whatsappMesaj (l : Lastik) (tarih : String) : String :=
  "\n*MesTakip - " ++ l.cari ++ "*\n\n*Ürün:* " ++ l.urun ++ "\n*Marka:* " ++
    l.marka ++ "\n*Adet:* " ++ toString l.adet ++ "\n*Durum:* " ++
    durumDisplay l.durum ++ "\n*Güncellenen Son Tarih:* " ++ tarih ++ "\n        "

/-- whatsapp_gonder (store/views.py lines 868-915): fetch the record
through the default manager, build the message and the wa.me URL, mark
sms_gonderildi true and save; a missing record yields the failure payload
(none) and changes nothing. No delivery ever takes place or is checked. -/
def whatsappGonder (db : List Lastik) (lastik_id : Nat) (tarih : String) :
    Option String × List Lastik :=
  match db.find? (fun l => l.is_removed == false && l.id == lastik_id) with
  | none => (none, db)
  | some lastik =>
    let mesaj := whatsappMesaj lastik tarih
    let url := "https://wa.me/?text=" ++ ((mesaj.replace " " "%20").replace "\n" "%0A")
    (some url,
      replaceById lastik_id (lastikSave { lastik with sms_gonderildi := true }) db)

/-- C8: requesting the notification for an existing live record always
returns the preformatted message URL built from the record's fields and, as
a side effect of the request alone, persists the record with
sms_gonderildi set to true: every stored row under that id now carries the
flag. -/
theorem whatsapp_gonder_marks_sms_sent (db : List Lastik) (i : Nat)
    (tarih : String) (l : Lastik)
    (hfind : db.find? (fun x => x.is_removed == false && x.id == i) = some l) :
    whatsappGonder db i tarih =
      (some ("https://wa.me/?text=" ++
        (((whatsappMesaj l tarih).replace " " "%20").replace "\n" "%0A")),
       replaceById i (lastikSave { l with sms_gonderildi := true }) db) ∧
    (lastikSave { l with sms_gonderildi := true }).sms_gonderildi = true ∧
    ∀ x ∈ replaceById i (lastikSave { l with sms_gonderildi := true }) db,
      x.id = i → x.sms_gonderildi = true := by
  have hid : l.id = i := by
    have := List.find?_some hfind
    simp at this
    exact this.2
  refine ⟨?_, by rw [lastikSave_sms_gonderildi], ?_⟩
  · unfold whatsappGonder
    rw [hfind]
  intro x hx hxi
  unfold replaceById at hx
  rw [List.mem_map] at hx
  obtain ⟨y, _, hy⟩ := hx
  by_cases h : y.id = i
  · rw [if_pos h] at hy
    rw [← hy, lastikSave_sms_gonderildi]
  · rw [if_neg h] at hy
    rw [← hy] at hxi
    exact absurd hxi h

/-- C8 witness: requesting the message for the live record with id 1 stores
it back with sms_gonderildi true. -/
theorem whatsapp_gonder_marks_sms_sent_witness :
    ([Lastik.mk 1 "CARI" "URUN" "MARKA" "BINEK" (some "YAZ") 1 0 0 "YOLDA" "STOK"
        none false false none (some 1) false 0 0].find?
      (fun x => x.is_removed == false && x.id == 1) =
      some (Lastik.mk 1 "CARI" "URUN" "MARKA" "BINEK" (some "YAZ") 1 0 0 "YOLDA" "STOK"
        none false false none (some 1) false 0 0)) ∧
    (whatsappGonder
      [Lastik.mk 1 "CARI" "URUN" "MARKA" "BINEK" (some "YAZ") 1 0 0 "YOLDA" "STOK"
        none false false none (some 1) false 0 0] 1 "01.01.2025 10:00").2 =
      [Lastik.mk 1 "CARI" "URUN" "MARKA" "BINEK" (some "YAZ") 1 0 0 "YOLDA" "STOK"
        none true false none (some 1) false 0 0] :=
  ⟨by decide,
    (congrArg Prod.snd
      (whatsapp_gonder_marks_sms_sent
        [Lastik.mk 1 "CARI" "URUN" "MARKA" "BINEK" (some "YAZ") 1 0 0 "YOLDA" "STOK"
          none false false none (some 1) false 0 0] 1 "01.01.2025 10:00"
        (Lastik.mk 1 "CARI" "URUN" "MARKA" "BINEK" (some "YAZ") 1 0 0 "YOLDA" "STOK"
          none false false none (some 1) false 0 0) (by decide)).1).trans (by decide)⟩

/-- The serialized shape produced by Item.to_json (store/models.py lines
89-96): model_to_dict fields plus the overrides id, text (the name),
category (its name), quantity pinned to 1 and total_product pinned to 0. -/
structure ItemJson where
  id : Nat
  text : String
  category : String
  quantity : ℤ
  total_product : ℤ
  name : String
  description : Option String
  price : ℚ
  user : Option Nat
deriving DecidableEq

/-- Item.to_json. -/
def itemToJson (i : Item) : ItemJson :=
  ItemJson.mk i.id i.name i.category 1 0 i.name i.description i.price i.user

/-- get_items_ajax_view (store/views.py lines 620-636): filter the whole
Item table by case-insensitive name match on the posted term, in the
model's name ordering, take the first ten, serialize each with to_json.
The acting user is taken from the request but never used in the query. -/
def getItemsAjax (user : Kullanici) (term : String) (db : List Item) : List ItemJson :=
  ((sortByBool (fun a b => decide (a.name ≤ b.name))
    (db.filter (fun i => icontains i.name term))).take 10).map itemToJson

/-- C10: the AJAX item lookup applies no ownership filter: any two users
get the identical list for the same term and table; the list holds at most
ten entries; every entry has quantity 1 and total_product 0 and serializes
some row of the full table (whoever owns it) whose name matches the term. -/
theorem get_items_ajax_no_ownership_filter (u1 u2 : Kullanici) (term : String)
    (db : List Item) :
    getItemsAjax u1 term db = getItemsAjax u2 term db ∧
    (getItemsAjax u1 term db).length ≤ 10 ∧
    ∀ j ∈ getItemsAjax u1 term db,
      j.quantity = 1 ∧ j.total_product = 0 ∧
      ∃ i, i ∈ db ∧ icontains i.name term = true ∧ j = itemToJson i := by
  refine ⟨rfl, ?_, ?_⟩
  · unfold getItemsAjax
    rw [List.length_map, List.length_take]
    exact min_le_left _ _
  · intro j hj
    unfold getItemsAjax at hj
    rw [List.mem_map] at hj
    obtain ⟨i, hi, rfl⟩ := hj
    have hi2 : i ∈ sortByBool (fun a b => decide (a.name ≤ b.name))
        (db.filter (fun x => icontains x.name term)) :=
      List.take_subset _ _ hi
    rw [mem_sortByBool] at hi2
    have hi3 := List.mem_filter.mp hi2
    exact ⟨rfl, rfl, i, hi3.1, hi3.2, rfl⟩

/-- C10 witness: two distinct non-admin users issue the same search and get
the same single result, serialized with quantity 1 and total_product 0. -/
theorem get_items_ajax_no_ownership_filter_witness :
    getItemsAjax (Kullanici.mk 1 false "OP") "205"
      [Item.mk 3 (some 2) "Lastik 205/55" none "Kategori" 7 0 none none none "TRY"] =
    getItemsAjax (Kullanici.mk 2 false "OP") "205"
      [Item.mk 3 (some 2) "Lastik 205/55" none "Kategori" 7 0 none none none "TRY"] ∧
    (itemToJson (Item.mk 3 (some 2) "Lastik 205/55" none "Kategori" 7 0
      none none none "TRY")).quantity = 1 ∧
    (itemToJson (Item.mk 3 (some 2) "Lastik 205/55" none "Kategori" 7 0
      none none none "TRY")).total_product = 0 :=
  ⟨(get_items_ajax_no_ownership_filter (Kullanici.mk 1 false "OP")
      (Kullanici.mk 2 false "OP") "205"
      [Item.mk 3 (some 2) "Lastik 205/55" none "Kategori" 7 0 none none none "TRY"]).1,
    ((get_items_ajax_no_ownership_filter (Kullanici.mk 1 false "OP")
      (Kullanici.mk 2 false "OP") "205"
      [Item.mk 3 (some 2) "Lastik 205/55" none "Kategori" 7 0 none none none "TRY"]).2.2
      (itemToJson (Item.mk 3 (some 2) "Lastik 205/55" none "Kategori" 7 0
        none none none "TRY")) (by decide)).1,
    ((get_items_ajax_no_ownership_filter (Kullanici.mk 1 false "OP")
      (Kullanici.mk 2 false "OP") "205"
      [Item.mk 3 (some 2) "Lastik 205/55" none "Kategori" 7 0 none none none "TRY"]).2.2
      (itemToJson (Item.mk 3 (some 2) "Lastik 205/55" none "Kategori" 7 0
        none none none "TRY")) (by decide)).2.1⟩
